import Mathlib

/-!
# Simple-Web-Server: `http_examples.cpp`

A shallow embedding of `send_file` (path resolution under a web root followed
by the streamed transfer of the file) and of the example handlers registered in
`main`, with theorems about path traversal, symbolic links, the response
written to the sink, the content-type table and the fallback chain of the
default `GET` handler.

Conventions of the embedding

* a `std::string` is a `List Char`, one `Char` per C++ `char`;
* a `boost::filesystem::path` is the sequence of its elements, and
  `real_path /= seg` appends one element;
* the output sink is the sequence of operations issued on it, one `write` per
  C++ output statement (a chain of `<<` is one statement) and one `flush` per
  `response.flush()`; the error flags of the stream are not part of the model;
* everything that Boost.Filesystem and the operating system answer is a field
  of `Filesystem`, so that the theorems hold for every answer they can give.
-/

namespace HttpExamples

/-- A `std::string`. -/
abbrev Str := List Char

/-- A `boost::filesystem::path`, as the sequence of its elements. -/
abbrev Path := List Str

/-- The values of `boost::filesystem::file_type`. -/
inductive file_type where
  | status_error
  | file_not_found
  | regular_file
  | directory_file
  | symlink_file
  | block_file
  | character_file
  | fifo_file
  | socket_file
  | type_unknown
  deriving DecidableEq, Repr

/-- What `send_file` asks of Boost.Filesystem and of the disk.

* `canonical root_dir` is `boost::filesystem::canonical(path(root_dir), ec)`:
  `none` when `ec` is set, the canonical path otherwise;
* `elements http_path` is the iteration `req_path.begin() .. req_path.end()`
  over `boost::filesystem::path(http_path)`;
* `status p` is what `stat` says of `p`, symbolic links followed: a type, or
  `file_not_found` when the file is missing (`ENOENT`, `ENOTDIR`), or
  `status_error` when `stat` fails with any other error (`ELOOP`, `EACCES`,
  `ENAMETOOLONG`);
* `symlink_status p` is the same for `lstat`, which does not follow a symbolic
  link in the last component;
* `ifstream p` is the construction of `boost::filesystem::ifstream(p, binary)`:
  `none` when the stream is not good, the bytes of the file otherwise;
* `extension p` is `boost::filesystem::extension(p)`;
* `file_size p` is `boost::filesystem::file_size(p)`.

`send_file` calls the throwing overloads of `exists`, `is_symlink` and
`is_regular_file`, and has no `try`: on `status_error` they throw
`filesystem_error`, and the exception leaves `send_file`. `file_size` is called
only on a path that `status` has just reported as a regular file, and is taken
to return its size. -/
structure Filesystem where
  canonical : Str → Option Path
  elements : Str → List Str
  status : Path → file_type
  symlink_status : Path → file_type
  ifstream : Path → Option Str
  extension : Path → Str
  file_size : Path → Nat

/-- Boost, throwing overload `exists(p)`: it throws when `stat` fails with an
error other than a missing file (`none`), and otherwise tells whether the file
is there. -/
def Filesystem.exists_ (fs : Filesystem) (p : Path) : Option Bool :=
  if fs.status p = file_type.status_error then none
  else some (fs.status p != file_type.file_not_found)

/-- Boost, throwing overload `is_symlink(p)`: it throws when `lstat` fails with
an error other than a missing file (`none`), and otherwise tells whether the
type is `symlink_file`. -/
def Filesystem.is_symlink (fs : Filesystem) (p : Path) : Option Bool :=
  if fs.symlink_status p = file_type.status_error then none
  else some (fs.symlink_status p == file_type.symlink_file)

/-- Boost, throwing overload `is_regular_file(p)`: it throws when `stat` fails
with an error other than a missing file (`none`), and otherwise tells whether
the type is `regular_file`. -/
def Filesystem.is_regular_file (fs : Filesystem) (p : Path) : Option Bool :=
  if fs.status p = file_type.status_error then none
  else some (fs.status p == file_type.regular_file)

/-- An operation issued on the response sink. -/
inductive SinkOp where
  | write (data : Str)
  | flush
  deriving DecidableEq, Repr

/-- The response sink: the operations issued on it so far, oldest first. -/
abbrev Response := List SinkOp

/-- The line that `send_file` prints on `std::cerr` before it returns false.

* `InvalidRoot`: `Invalid web root directory ...` (line 30);
* `PathTraversal`: `".." not allowed in path ...` (line 39);
* `NotFound p`: `Invalid path p` (line 44);
* `SymlinkRejected p`: `Symlink p not allowed` (line 48);
* `NotAFile p`: `p is not a file` (line 54);
* `OpenFailed p`: `Failed opening file p` (line 60). -/
inductive Reject where
  | InvalidRoot
  | PathTraversal
  | NotFound (p : Path)
  | SymlinkRejected (p : Path)
  | NotAFile (p : Path)
  | OpenFailed (p : Path)
  deriving DecidableEq, Repr

/-- How the checks of `send_file` end when they do not yield a path: by a
`return false` after one of the lines of `Reject`, or by the `filesystem_error`
that a Boost call on the path `p` throws. -/
inductive Stop where
  | rejected (r : Reject)
  | thrown (p : Path)
  deriving DecidableEq, Repr

/-- The loop of lines 35-51 over the remaining elements of the request path,
`real_path` being the path accumulated so far. -/
def walk (fs : Filesystem) (real_path : Path) : List Str → Except Stop Path
  | [] => Except.ok real_path
  | seg :: rest =>
    if seg = ".".toList ∨ seg = "/".toList then
      walk fs real_path rest
    else if seg = "..".toList then
      Except.error (Stop.rejected Reject.PathTraversal)
    else
      match fs.exists_ (real_path ++ [seg]) with
      | none => Except.error (Stop.thrown (real_path ++ [seg]))
      | some false => Except.error (Stop.rejected (Reject.NotFound (real_path ++ [seg])))
      | some true =>
        match fs.is_symlink (real_path ++ [seg]) with
        | none => Except.error (Stop.thrown (real_path ++ [seg]))
        | some true =>
          Except.error (Stop.rejected (Reject.SymlinkRejected (real_path ++ [seg])))
        | some false => walk fs (real_path ++ [seg]) rest

/-- Lines 26-56 of `send_file`: canonical root, walk over the elements of the
request path, regular-file check. -/
def resolve (fs : Filesystem) (root_dir http_path : Str) : Except Stop Path :=
  match fs.canonical root_dir with
  | none => Except.error (Stop.rejected Reject.InvalidRoot)
  | some real_path =>
    match walk fs real_path (fs.elements http_path) with
    | Except.error e => Except.error e
    | Except.ok real_path =>
      match fs.is_regular_file real_path with
      | none => Except.error (Stop.thrown real_path)
      | some false => Except.error (Stop.rejected (Reject.NotAFile real_path))
      | some true => Except.ok real_path

/-- The static table `content_types` of lines 64-74. -/
def content_types : List (Str × Str) :=
  [ (".txt".toList, "Content-Type: text/plain\r\n".toList),
    (".png".toList, "Content-Type: image/png\r\n".toList),
    (".jpg".toList, "Content-Type: image/jpeg\r\n".toList),
    (".jpeg".toList, "Content-Type: image/jpeg\r\n".toList),
    (".gif".toList, "Content-Type: image/gif\r\n".toList),
    (".css".toList, "Content-Type: text/css\r\n".toList),
    (".html".toList, "Content-Type: text/html\r\n".toList),
    (".pdf".toList, "Content-Type: application/pdf\r\n".toList),
    (".json".toList, "Content-Type: application/json\r\n".toList) ]

/-- Lines 76-79: `content_types.find(extension)`, the empty string when the
extension is not a key. -/
def content_type (ext : Str) : Str :=
  match content_types.lookup ext with
  | some line => line
  | none => []

/-- Insertion of a `size_t` into the stream: its decimal digits. -/
def size_to_chars (n : Nat) : Str := Nat.toDigits 10 n

/-- Insertion of an `int` into the stream: a minus sign for a negative value,
then the decimal digits. -/
def int_to_chars : Int → Str
  | Int.ofNat n => Nat.toDigits 10 n
  | Int.negSucc n => '-' :: Nat.toDigits 10 (n + 1)

/-- The bytes inserted by line 81. -/
def header (status : Int) (content_type : Str) (length : Nat) : Str :=
  "HTTP/1.1 ".toList ++ int_to_chars status ++ "\r\n".toList ++ content_type
    ++ "Content-Length: ".toList ++ size_to_chars length ++ "\r\n\r\n".toList

/-- The constant `buffer_size` of line 84. -/
def buffer_size : Nat := 131072

/-- The loop of lines 88-91. `ifs` is what is left of the file; a read takes at
most `buffer_size` bytes of it, and the loop goes on while the read got at least
one byte. The result is the sink after the loop. -/
def read_loop (response : Response) (ifs : Str) : Response :=
  if 0 < (ifs.take buffer_size).length then
    read_loop (response ++ [SinkOp.write (ifs.take buffer_size), SinkOp.flush])
      (ifs.drop buffer_size)
  else
    response
termination_by ifs.length
decreasing_by
  simp only [List.length_take, List.length_drop, buffer_size] at *
  omega

/-- What a call of `send_file` leaves behind: the returned value (`none` when
the call is left by an exception instead of a return), the sink, the line
printed on `std::cerr` if any, the path handed to the `ifstream` constructor if
the call got that far, and the bytes taken out of the file. -/
structure Outcome where
  ret : Option Bool
  response : Response
  cerr : Option Reject
  opened : Option Path
  file_read : Str
  deriving DecidableEq, Repr

/-- The function `send_file` of lines 24-96. -/
def send_file (fs : Filesystem) (response : Response) (root_dir http_path : Str)
    (status : Int) : Outcome :=
  match resolve fs root_dir http_path with
  | Except.error (Stop.rejected r) =>
    { ret := some false, response := response, cerr := some r, opened := none,
      file_read := [] }
  | Except.error (Stop.thrown _) =>
    { ret := none, response := response, cerr := none, opened := none, file_read := [] }
  | Except.ok real_path =>
    match fs.ifstream real_path with
    | none =>
      { ret := some false, response := response, cerr := some (Reject.OpenFailed real_path),
        opened := some real_path, file_read := [] }
    | some ifs =>
      let length := fs.file_size real_path
      let response := response ++
        [SinkOp.write (header status (content_type (fs.extension real_path)) length)]
      if length > buffer_size then
        { ret := some true, response := read_loop response ifs, cerr := none,
          opened := some real_path, file_read := ifs }
      else
        { ret := some true, response := response ++ [SinkOp.write ifs], cerr := none,
          opened := some real_path, file_read := ifs }

/-! ### The handlers registered in `main` -/

/-- The request handed to a handler (`HttpServer::Request`), with the fields the
handlers of `main` read. -/
structure Request where
  method : Str
  path : Str
  http_version : Str
  header : List (Str × Str)
  content : Str
  endpoint_address : Str
  endpoint_port : Nat
  path_match : List Str

/-- `boost::property_tree` as the `/json` handler uses it: `read_json` throws
(the message of the exception) or yields a tree, and `get<string>(key)` on that
tree throws or yields the string stored under the key. -/
structure PropertyTree where
  read_json : Str → Except Str (Str → Except Str Str)

/-- The handler of `resource["^/string$"]["POST"]`, lines 105-112. -/
def string_POST (response : Response) (request : Request) : Response :=
  response ++ [SinkOp.write ("HTTP/1.1 200 OK\r\nContent-Length: ".toList
    ++ size_to_chars request.content.length ++ "\r\n\r\n".toList ++ request.content)]

/-- The reply of the `catch` branch of the `/json` handler, line 132. -/
def bad_request (response : Response) (what : Str) : Response :=
  response ++ [SinkOp.write ("HTTP/1.1 400 Bad Request\r\nContent-Length: ".toList
    ++ size_to_chars what.length ++ "\r\n\r\n".toList ++ what)]

/-- The handler of `resource["^/json$"]["POST"]`, lines 122-134. C++ leaves the
order of the two `get` calls of line 127 to the compiler; here `firstName` is
read first. -/
def json_POST (pt : PropertyTree) (response : Response) (request : Request) : Response :=
  match pt.read_json request.content with
  | Except.error what => bad_request response what
  | Except.ok tree =>
    match tree "firstName".toList with
    | Except.error what => bad_request response what
    | Except.ok firstName =>
      match tree "lastName".toList with
      | Except.error what => bad_request response what
      | Except.ok lastName =>
        response ++ [SinkOp.write ("HTTP/1.1 200 OK\r\nContent-Length: ".toList
          ++ size_to_chars (firstName ++ " ".toList ++ lastName).length ++ "\r\n\r\n".toList
          ++ (firstName ++ " ".toList ++ lastName))]

/-- The handler of `resource["^/info$"]["GET"]`, lines 138-150. -/
def info_GET (response : Response) (request : Request) : Response :=
  let content_stream : Str :=
    "<h1>Request from ".toList ++ request.endpoint_address ++ " (".toList
      ++ size_to_chars request.endpoint_port ++ ")</h1>".toList
      ++ request.method ++ " ".toList ++ request.path ++ " HTTP/".toList
      ++ request.http_version ++ "<br>".toList
      ++ (request.header.map fun h => h.1 ++ ": ".toList ++ h.2 ++ "<br>".toList).flatten
  response ++ [SinkOp.write ("HTTP/1.1 200 OK\r\nContent-Length: ".toList
    ++ size_to_chars content_stream.length ++ "\r\n\r\n".toList ++ content_stream)]

/-- The handler of `resource["^/match/([0-9]+)$"]["GET"]`, lines 154-157.
`path_match[1]` is the empty string when the match has no first group. -/
def match_GET (response : Response) (request : Request) : Response :=
  let number := request.path_match.getD 1 []
  response ++ [SinkOp.write ("HTTP/1.1 200 OK\r\nContent-Length: ".toList
    ++ size_to_chars number.length ++ "\r\n\r\n".toList ++ number)]

/-- The path that the default handler serves first, line 164. -/
def primary_path (path : Str) : Str :=
  if path = "/".toList then "/index.html".toList else path

/-- The body of the synthesized reply, line 166. -/
def not_found_content (http_path : Str) : Str :=
  "\"".toList ++ http_path ++ "\" not found".toList

/-- How a handler ends: the sink it leaves, and whether it was left by an
exception instead of a return. -/
structure Handled where
  response : Response
  thrown : Bool
  deriving DecidableEq, Repr

/-- The handler of `default_resource["GET"]`, lines 163-170. It has no `try`: an
exception that leaves a call of `send_file` leaves the handler too. -/
def default_GET_run (fs : Filesystem) (response : Response) (request : Request) : Handled :=
  let http_path := primary_path request.path
  let first := send_file fs response "web".toList http_path 200
  match first.ret with
  | none => { response := first.response, thrown := true }
  | some true => { response := first.response, thrown := false }
  | some false =>
    let second := send_file fs first.response "web".toList "/404.html".toList 404
    match second.ret with
    | none => { response := second.response, thrown := true }
    | some true => { response := second.response, thrown := false }
    | some false =>
      { response := second.response ++ [SinkOp.write
          ("HTTP/1.1 404 Not found\r\nContent-type: text/plain\r\nContent-Length: ".toList
            ++ size_to_chars (not_found_content http_path).length ++ "\r\n\r\n".toList
            ++ not_found_content http_path)],
        thrown := false }

/-- The sink that the handler of `default_resource["GET"]` leaves. -/
def default_GET (fs : Filesystem) (response : Response) (request : Request) : Response :=
  (default_GET_run fs response request).response

/-! ### The router -/

/-- What is left of `s` after the literal `lit`, when `s` starts with it. -/
def after_literal : Str → Str → Option Str
  | [], s => some s
  | _ :: _, [] => none
  | c :: lit, d :: s => if c = d then after_literal lit s else none

/-- Modelled from the spec: the full match of a request path against a route
pattern (`std::regex_match` in `server_http.hpp`, which is not among the
sources), for the four patterns that `main` registers. The result is the
sequence of matched substrings, the whole match at index 0 and the capture
groups from index 1 on, in the order of their declaration in the pattern. -/
def regex_match (pattern path : Str) : Option (List Str) :=
  if pattern = "^/string$".toList then
    if path = "/string".toList then some [path] else none
  else if pattern = "^/json$".toList then
    if path = "/json".toList then some [path] else none
  else if pattern = "^/info$".toList then
    if path = "/info".toList then some [path] else none
  else if pattern = "^/match/([0-9]+)$".toList then
    match after_literal "/match/".toList path with
    | some d => if d ≠ [] ∧ d.all Char.isDigit then some [path, d] else none
    | none => none
  else
    none

/-- An entry of `server.resource`: pattern, method, handler. -/
structure Route where
  pattern : Str
  method : Str
  handler : Response → Request → Response

/-- The registrations of `main`, lines 105-157, in the order of the source. -/
def resource (pt : PropertyTree) : List Route :=
  [ { pattern := "^/string$".toList, method := "POST".toList, handler := string_POST },
    { pattern := "^/json$".toList, method := "POST".toList, handler := json_POST pt },
    { pattern := "^/info$".toList, method := "GET".toList, handler := info_GET },
    { pattern := "^/match/([0-9]+)$".toList, method := "GET".toList, handler := match_GET } ]

/-- The registrations of default handlers of `main`, line 163. -/
def default_resource (fs : Filesystem) : List (Str × (Response → Request → Response)) :=
  [ ("GET".toList, default_GET fs) ]

/-- Modelled from the spec: the first route of the request's method whose
pattern matches the full request path, with the matched substrings (section 4.4;
the router is in `server_http.hpp`, which is not among the sources). -/
def find_route : List Route → Request → Option (Route × List Str)
  | [], _ => none
  | r :: rest, request =>
    if r.method = request.method then
      match regex_match r.pattern request.path with
      | some m => some (r, m)
      | none => find_route rest request
    else
      find_route rest request

/-- Modelled from the spec: the dispatch of section 4.4 (the router is in
`server_http.hpp`, which is not among the sources). The first matching route of
the method is invoked with the captures of the match; when no route matches, the
default handler of the method is invoked if there is one; otherwise nothing is
invoked. -/
def dispatch (routes : List Route) (defaults : List (Str × (Response → Request → Response)))
    (response : Response) (request : Request) : Response :=
  match find_route routes request with
  | some (r, m) => r.handler response { request with path_match := m }
  | none =>
    match defaults.lookup request.method with
    | some handler => handler response request
    | none => response

/-- The server of `main`: its routes and default handlers behind the router. -/
def server (fs : Filesystem) (pt : PropertyTree) (response : Response) (request : Request) :
    Response :=
  dispatch (resource pt) (default_resource fs) response request

/-! ### A concrete disk, for the examples -/

/-- An entry of a concrete disk. -/
inductive Node where
  | file (content : Str)
  | directory
  | symlink (target : Path)

/-- The type of the entry at `p`, symbolic links followed at most `fuel` times;
when the links do not end within that many steps, `stat` fails with `ELOOP`. -/
def disk_status (disk : List (Path × Node)) : Nat → Path → file_type
  | 0, _ => file_type.status_error
  | fuel + 1, p =>
    match disk.lookup p with
    | none => file_type.file_not_found
    | some (Node.file _) => file_type.regular_file
    | some Node.directory => file_type.directory_file
    | some (Node.symlink target) => disk_status disk fuel target

/-- The type of the entry at `p` itself. -/
def disk_symlink_status (disk : List (Path × Node)) (p : Path) : file_type :=
  match disk.lookup p with
  | none => file_type.file_not_found
  | some (Node.file _) => file_type.regular_file
  | some Node.directory => file_type.directory_file
  | some (Node.symlink _) => file_type.symlink_file

/-- The bytes of the file that `p` leads to, symbolic links followed at most
`fuel` times. -/
def disk_content (disk : List (Path × Node)) : Nat → Path → Option Str
  | 0, _ => none
  | fuel + 1, p =>
    match disk.lookup p with
    | some (Node.file content) => some content
    | some (Node.symlink target) => disk_content disk fuel target
    | _ => none

/-- The names between the slashes of a path string; `cur` is the name being
read. -/
def split_names : Str → Str → List Str
  | cur, [] => if cur = [] then [] else [cur]
  | cur, c :: cs =>
    if c = '/' then
      if cur = [] then split_names [] cs else cur :: split_names [] cs
    else
      split_names (cur ++ [c]) cs

/-- The elements of a path string in the way Boost iterates over a POSIX path
such as `/a/b`: the root directory `/` when the string starts with a slash, then
the names, then `.` when a slash follows the last name. -/
def disk_elements (s : Str) : List Str :=
  (if s.head? = some '/' then ["/".toList] else [])
    ++ split_names [] s
    ++ (if s.getLast? = some '/' ∧ split_names [] s ≠ [] then [".".toList] else [])

/-- The extension of the last element of a path: from its last dot on, empty
when it has no dot or is `.` or `..`. -/
def disk_extension (p : Path) : Str :=
  match p.getLast? with
  | none => []
  | some name =>
    if name = ".".toList ∨ name = "..".toList then []
    else if '.' ∈ name then '.' :: (name.reverse.takeWhile fun c => c != '.').reverse
    else []

/-- The file system in which the directory `web` of the working directory is
`root` and the disk holds the entries `disk`. -/
def disk_filesystem (root : Path) (disk : List (Path × Node)) : Filesystem where
  canonical := fun root_dir =>
    if root_dir = "web".toList ∧ disk_status disk 40 root = file_type.directory_file
    then some root else none
  elements := disk_elements
  status := disk_status disk 40
  symlink_status := disk_symlink_status disk
  ifstream := disk_content disk 40
  extension := disk_extension
  file_size := fun p => ((disk_content disk 40 p).getD []).length

/-- The canonical path of the web root of the examples, `/srv/web`. -/
def web : Path := ["/".toList, "srv".toList, "web".toList]

/-- A disk with `index.html`, a directory `css` and a file in it. -/
def site : List (Path × Node) :=
  [ (web, Node.directory),
    (web ++ ["index.html".toList], Node.file "hello".toList),
    (web ++ ["css".toList], Node.directory),
    (web ++ ["css".toList, "main.css".toList], Node.file "p\x7b\x7d".toList),
    (web ++ ["README".toList], Node.file "read me".toList) ]

/-- The example disk with three symbolic links added below the web root:
`latest`, whose target `index.html` lies inside the root, `ghost`, whose target
does not exist, and `loop`, whose target is `loop` itself. -/
def site_with_links : List (Path × Node) :=
  site ++
    [ (web ++ ["latest".toList], Node.symlink (web ++ ["index.html".toList])),
      (web ++ ["ghost".toList], Node.symlink (web ++ ["nothing".toList])),
      (web ++ ["loop".toList], Node.symlink (web ++ ["loop".toList])) ]

/-- The example disk on which no file can be opened for reading (no read
permission): `stat` answers as before, the `ifstream` is not good. -/
def unreadable_site : Filesystem :=
  { disk_filesystem web site with ifstream := fun _ => none }

/-- The example disk with one more file, `big.bin`, of 131073 bytes: one byte
more than the buffer holds. -/
def site_with_big_file : List (Path × Node) :=
  site ++ [ (web ++ ["big.bin".toList], Node.file (List.replicate 131073 'a')) ]

/-- A disk that holds the web root and nothing in it. -/
def empty_site : List (Path × Node) := [ (web, Node.directory) ]

/-- A `GET` request for `path`, as the client of `main` sends it. -/
def get_request (path : Str) : Request where
  method := "GET".toList
  path := path
  http_version := "1.1".toList
  header := []
  content := []
  endpoint_address := "127.0.0.1".toList
  endpoint_port := 40000
  path_match := []

/-- The property tree library on which every read fails; the `GET` handlers do
not call it. -/
def no_json : PropertyTree where
  read_json := fun _ => Except.error "no json".toList

/-- The example disk with a page `404.html` added. -/
def site_with_404 : List (Path × Node) :=
  site ++ [ (web ++ ["404.html".toList], Node.file "not here!".toList) ]

/-! ### Vocabulary of the statements -/

/-- The elements of a request path that the walk appends: all but `.` and `/`. -/
def names (segs : List Str) : List Str :=
  segs.filter fun seg => !decide (seg = ".".toList ∨ seg = "/".toList)

/-- Every path accumulated below `real_path` along `l` exists and is not a
symbolic link. -/
def Checked (fs : Filesystem) (real_path : Path) (l : List Str) : Prop :=
  ∀ q : List Str, q ≠ [] → q <+: l →
    fs.exists_ (real_path ++ q) = some true ∧ fs.is_symlink (real_path ++ q) = some false

/-- The bytes that a sequence of sink operations carries, in order. -/
def sent : Response → Str
  | [] => []
  | SinkOp.write data :: ops => data ++ sent ops
  | SinkOp.flush :: ops => sent ops

/-- The keys of the content-type table. -/
def known_extensions : List Str :=
  [ ".txt".toList, ".png".toList, ".jpg".toList, ".jpeg".toList, ".gif".toList,
    ".css".toList, ".html".toList, ".pdf".toList, ".json".toList ]

/-! ### The walk -/

theorem names_cons_skip (seg : Str) (rest : List Str)
    (h : seg = ".".toList ∨ seg = "/".toList) : names (seg :: rest) = names rest := by
  unfold names
  rw [List.filter_cons_of_neg]
  simp only [h, decide_True, Bool.not_true, Bool.false_eq_true, not_false_eq_true]

theorem names_cons_keep (seg : Str) (rest : List Str)
    (h : ¬ (seg = ".".toList ∨ seg = "/".toList)) : names (seg :: rest) = seg :: names rest := by
  unfold names
  rw [List.filter_cons_of_pos]
  simp only [h, decide_False, Bool.not_false]

theorem mem_names {seg : Str} {segs : List Str} :
    seg ∈ names segs ↔ seg ∈ segs ∧ seg ≠ ".".toList ∧ seg ≠ "/".toList := by
  simp [names]

theorem checked_nil (fs : Filesystem) (real_path : Path) : Checked fs real_path [] := by
  intro q hq hpre
  exact absurd (List.prefix_nil.mp hpre) hq

theorem checked_cons (fs : Filesystem) (real_path : Path) (seg : Str) (l : List Str) :
    Checked fs real_path (seg :: l) ↔
      (fs.exists_ (real_path ++ [seg]) = some true
          ∧ fs.is_symlink (real_path ++ [seg]) = some false)
        ∧ Checked fs (real_path ++ [seg]) l := by
  constructor
  · intro h
    refine ⟨h [seg] (by simp) (by simp), ?_⟩
    intro q hq hpre
    have := h (seg :: q) (by simp) ((List.prefix_cons_inj seg).mpr hpre)
    simpa using this
  · rintro ⟨h0, h⟩ q hq hpre
    rcases List.prefix_cons_iff.mp hpre with rfl | ⟨t, rfl, ht⟩
    · exact absurd rfl hq
    · by_cases ht0 : t = []
      · subst ht0; exact h0
      · have := h t ht0 ht
        simpa using this

/-- One step of the walk on an element that is neither skipped nor `..`. -/
theorem walk_cons_keep (fs : Filesystem) (real_path : Path) (seg : Str) (rest : List Str)
    (hskip : ¬ (seg = ".".toList ∨ seg = "/".toList)) (hdd : seg ≠ "..".toList) :
    walk fs real_path (seg :: rest) =
      match fs.exists_ (real_path ++ [seg]) with
      | none => Except.error (Stop.thrown (real_path ++ [seg]))
      | some false => Except.error (Stop.rejected (Reject.NotFound (real_path ++ [seg])))
      | some true =>
        match fs.is_symlink (real_path ++ [seg]) with
        | none => Except.error (Stop.thrown (real_path ++ [seg]))
        | some true =>
          Except.error (Stop.rejected (Reject.SymlinkRejected (real_path ++ [seg])))
        | some false => walk fs (real_path ++ [seg]) rest := by
  simp only [walk, hskip, hdd, if_false]

theorem walk_cons_skip (fs : Filesystem) (real_path : Path) (seg : Str) (rest : List Str)
    (hskip : seg = ".".toList ∨ seg = "/".toList) :
    walk fs real_path (seg :: rest) = walk fs real_path rest := by
  simp only [walk, hskip, if_true]

theorem walk_dotdot (fs : Filesystem) (real_path : Path) (post : List Str) :
    walk fs real_path ("..".toList :: post)
      = Except.error (Stop.rejected Reject.PathTraversal) := by
  have h1 : ¬ ("..".toList = ".".toList ∨ "..".toList = "/".toList) := by decide
  simp only [walk, h1, if_false, if_true]

/-- The skipped elements do not change the walk. -/
theorem walk_names (fs : Filesystem) (segs : List Str) :
    ∀ real_path : Path, walk fs real_path segs = walk fs real_path (names segs) := by
  induction segs with
  | nil => intro real_path; rfl
  | cons seg rest ih =>
    intro real_path
    by_cases hskip : seg = ".".toList ∨ seg = "/".toList
    · rw [names_cons_skip seg rest hskip, ← ih real_path, walk_cons_skip fs _ _ _ hskip]
    · rw [names_cons_keep seg rest hskip]
      by_cases hdd : seg = "..".toList
      · rw [hdd, walk_dotdot, walk_dotdot]
      · rw [walk_cons_keep fs _ _ _ hskip hdd, walk_cons_keep fs _ _ _ hskip hdd, ih]

/-- The walk succeeds exactly when no element is `..` and every accumulated path
passes both checks; its result is then the root followed by the names. -/
theorem walk_ok_iff (fs : Filesystem) (segs : List Str) :
    ∀ real_path p : Path, walk fs real_path segs = Except.ok p ↔
      "..".toList ∉ segs ∧ Checked fs real_path (names segs) ∧ p = real_path ++ names segs := by
  induction segs with
  | nil =>
    intro real_path p
    simp [walk, names, checked_nil, eq_comm]
  | cons seg rest ih =>
    intro real_path p
    by_cases hskip : seg = ".".toList ∨ seg = "/".toList
    · have hne : "..".toList ≠ seg := by
        rcases hskip with h | h <;> rw [h] <;> decide
      rw [names_cons_skip seg rest hskip, walk_cons_skip fs _ _ _ hskip]
      simp only [ih, List.mem_cons, not_or]
      constructor
      · rintro ⟨h1, h2, h3⟩; exact ⟨⟨hne, h1⟩, h2, h3⟩
      · rintro ⟨⟨_, h1⟩, h2, h3⟩; exact ⟨h1, h2, h3⟩
    · rw [names_cons_keep seg rest hskip, checked_cons]
      by_cases hdd : seg = "..".toList
      · rw [hdd, walk_dotdot]
        simp
      · have hdd2 : ¬ "..".toList = seg := fun h => hdd h.symm
        rw [walk_cons_keep fs _ _ _ hskip hdd]
        simp only [List.mem_cons, not_or, hdd2, not_false_eq_true, true_and]
        cases hex : fs.exists_ (real_path ++ [seg]) with
        | none => simp
        | some b =>
          cases b with
          | false => simp
          | true =>
            cases hsl : fs.is_symlink (real_path ++ [seg]) with
            | none => simp
            | some c =>
              cases c with
              | true => simp
              | false => simp [ih]

/-- The walk over a list in two parts. -/
theorem walk_append (fs : Filesystem) (a b : List Str) :
    ∀ real_path : Path, walk fs real_path (a ++ b) =
      match walk fs real_path a with
      | Except.ok p => walk fs p b
      | Except.error e => Except.error e := by
  induction a with
  | nil => intro real_path; rfl
  | cons seg rest ih =>
    intro real_path
    rw [List.cons_append]
    by_cases hskip : seg = ".".toList ∨ seg = "/".toList
    · rw [walk_cons_skip fs _ _ _ hskip, walk_cons_skip fs _ _ _ hskip, ih]
    · by_cases hdd : seg = "..".toList
      · rw [hdd, walk_dotdot, walk_dotdot]
      · rw [walk_cons_keep fs _ _ _ hskip hdd, walk_cons_keep fs _ _ _ hskip hdd]
        cases fs.exists_ (real_path ++ [seg]) with
        | none => rfl
        | some b =>
          cases b with
          | false => rfl
          | true =>
            cases fs.is_symlink (real_path ++ [seg]) with
            | none => rfl
            | some c =>
              cases c with
              | true => rfl
              | false => exact ih _

theorem exists_none_iff (fs : Filesystem) (p : Path) :
    fs.exists_ p = none ↔ fs.status p = file_type.status_error := by
  unfold Filesystem.exists_
  split <;> simp [*]

theorem is_symlink_none_iff (fs : Filesystem) (p : Path) :
    fs.is_symlink p = none ↔ fs.symlink_status p = file_type.status_error := by
  unfold Filesystem.is_symlink
  split <;> simp [*]

theorem is_regular_file_none_iff (fs : Filesystem) (p : Path) :
    fs.is_regular_file p = none ↔ fs.status p = file_type.status_error := by
  unfold Filesystem.is_regular_file
  split <;> simp [*]

/-- The walk is left by an exception only when `stat` or `lstat` fails on the
path it has just accumulated. -/
theorem walk_thrown (fs : Filesystem) (segs : List Str) :
    ∀ real_path p : Path, walk fs real_path segs = Except.error (Stop.thrown p) →
      fs.status p = file_type.status_error
        ∨ fs.symlink_status p = file_type.status_error := by
  induction segs with
  | nil => intro real_path p h; simp [walk] at h
  | cons seg rest ih =>
    intro real_path p h
    by_cases hskip : seg = ".".toList ∨ seg = "/".toList
    · rw [walk_cons_skip fs _ _ _ hskip] at h
      exact ih _ _ h
    · by_cases hdd : seg = "..".toList
      · rw [hdd, walk_dotdot] at h
        simp at h
      · rw [walk_cons_keep fs _ _ _ hskip hdd] at h
        cases hex : fs.exists_ (real_path ++ [seg]) with
        | none =>
          rw [hex] at h
          simp only [Except.error.injEq, Stop.thrown.injEq] at h
          exact Or.inl (h ▸ (exists_none_iff fs _).mp hex)
        | some b =>
          rw [hex] at h
          cases b with
          | false => simp at h
          | true =>
            cases hsl : fs.is_symlink (real_path ++ [seg]) with
            | none =>
              rw [hsl] at h
              simp only [Except.error.injEq, Stop.thrown.injEq] at h
              exact Or.inr (h ▸ (is_symlink_none_iff fs _).mp hsl)
            | some c =>
              rw [hsl] at h
              cases c with
              | true => simp at h
              | false => exact ih _ _ h

/-! ### `send_file`: rejection -/

theorem resolve_ok_iff (fs : Filesystem) (root_dir http_path : Str) (p : Path) :
    resolve fs root_dir http_path = Except.ok p ↔
      ∃ real, fs.canonical root_dir = some real
        ∧ walk fs real (fs.elements http_path) = Except.ok p
        ∧ fs.is_regular_file p = some true := by
  cases hc : fs.canonical root_dir with
  | none => simp [resolve, hc]
  | some real =>
    cases hw : walk fs real (fs.elements http_path) with
    | error r => simp [resolve, hc, hw]
    | ok q =>
      cases hr : fs.is_regular_file q with
      | none =>
        simp only [resolve, hc, hw, hr, Option.some.injEq, exists_eq_left', Except.ok.injEq]
        constructor
        · intro h; cases h
        · rintro ⟨h, h2⟩; subst h; rw [hr] at h2; cases h2
      | some b =>
        cases b with
        | false =>
          simp only [resolve, hc, hw, hr, Option.some.injEq, exists_eq_left', Except.ok.injEq]
          constructor
          · intro h; cases h
          · rintro ⟨h, h2⟩; subst h; rw [hr] at h2; cases h2
        | true =>
          simp only [resolve, hc, hw, hr, Except.ok.injEq, Option.some.injEq, exists_eq_left']
          constructor
          · intro h; exact ⟨h, h ▸ hr⟩
          · intro h; exact h.1

/-- The checks are left by an exception only when `stat` or `lstat` fails with
an error other than a missing file. -/
theorem resolve_thrown (fs : Filesystem) (root_dir http_path : Str) (p : Path)
    (h : resolve fs root_dir http_path = Except.error (Stop.thrown p)) :
    fs.status p = file_type.status_error
      ∨ fs.symlink_status p = file_type.status_error := by
  cases hc : fs.canonical root_dir with
  | none => simp [resolve, hc] at h
  | some real =>
    cases hw : walk fs real (fs.elements http_path) with
    | error e =>
      simp only [resolve, hc, hw, Except.error.injEq] at h
      subst h
      exact walk_thrown fs _ real p hw
    | ok q =>
      cases hr : fs.is_regular_file q with
      | none =>
        simp only [resolve, hc, hw, hr, Except.error.injEq, Stop.thrown.injEq] at h
        exact Or.inl (h ▸ (is_regular_file_none_iff fs _).mp hr)
      | some b => cases b <;> simp [resolve, hc, hw, hr] at h

theorem send_file_of_rejected (fs : Filesystem) (response : Response)
    (root_dir http_path : Str) (status : Int) (r : Reject)
    (h : resolve fs root_dir http_path = Except.error (Stop.rejected r)) :
    send_file fs response root_dir http_path status =
      { ret := some false, response := response, cerr := some r, opened := none,
        file_read := [] } := by
  simp [send_file, h]

theorem send_file_of_thrown (fs : Filesystem) (response : Response)
    (root_dir http_path : Str) (status : Int) (p : Path)
    (h : resolve fs root_dir http_path = Except.error (Stop.thrown p)) :
    send_file fs response root_dir http_path status =
      { ret := none, response := response, cerr := none, opened := none,
        file_read := [] } := by
  simp [send_file, h]

theorem send_file_of_open_failed (fs : Filesystem) (response : Response)
    (root_dir http_path : Str) (status : Int) (p : Path)
    (h : resolve fs root_dir http_path = Except.ok p) (ho : fs.ifstream p = none) :
    send_file fs response root_dir http_path status =
      { ret := some false, response := response, cerr := some (Reject.OpenFailed p),
        opened := some p, file_read := [] } := by
  simp [send_file, h, ho]

theorem send_file_of_small (fs : Filesystem) (response : Response)
    (root_dir http_path : Str) (status : Int) (p : Path) (ifs : Str)
    (h : resolve fs root_dir http_path = Except.ok p) (ho : fs.ifstream p = some ifs)
    (hs : fs.file_size p ≤ buffer_size) :
    send_file fs response root_dir http_path status =
      { ret := some true,
        response := response ++
          [SinkOp.write (header status (content_type (fs.extension p)) (fs.file_size p))]
          ++ [SinkOp.write ifs],
        cerr := none, opened := some p, file_read := ifs } := by
  simp [send_file, h, ho, Nat.not_lt.mpr hs]

theorem send_file_of_large (fs : Filesystem) (response : Response)
    (root_dir http_path : Str) (status : Int) (p : Path) (ifs : Str)
    (h : resolve fs root_dir http_path = Except.ok p) (ho : fs.ifstream p = some ifs)
    (hs : buffer_size < fs.file_size p) :
    send_file fs response root_dir http_path status =
      { ret := some true,
        response := read_loop (response ++
          [SinkOp.write (header status (content_type (fs.extension p)) (fs.file_size p))]) ifs,
        cerr := none, opened := some p, file_read := ifs } := by
  simp [send_file, h, ho, hs]

/-- A call that returns true resolved the path and opened the file. -/
theorem send_file_true_iff (fs : Filesystem) (response : Response) (root_dir http_path : Str)
    (status : Int) :
    (send_file fs response root_dir http_path status).ret = some true ↔
      ∃ p ifs, resolve fs root_dir http_path = Except.ok p ∧ fs.ifstream p = some ifs := by
  cases h : resolve fs root_dir http_path with
  | error e =>
    cases e with
    | rejected r => simp [send_file_of_rejected _ _ _ _ _ r h]
    | thrown q => simp [send_file_of_thrown _ _ _ _ _ q h]
  | ok p =>
    cases ho : fs.ifstream p with
    | none => simp [send_file_of_open_failed _ _ _ _ _ p h ho, ho]
    | some ifs =>
      by_cases hs : fs.file_size p ≤ buffer_size
      · simp [send_file_of_small _ _ _ _ _ p ifs h ho hs, ho]
      · simp [send_file_of_large _ _ _ _ _ p ifs h ho (Nat.lt_of_not_le hs), ho]

/-- A call that does not return true hands the sink back as it got it. -/
theorem send_file_response_of_not_true (fs : Filesystem) (response : Response)
    (root_dir http_path : Str) (status : Int)
    (h : (send_file fs response root_dir http_path status).ret ≠ some true) :
    (send_file fs response root_dir http_path status).response = response := by
  cases hr : resolve fs root_dir http_path with
  | error e =>
    cases e with
    | rejected r => rw [send_file_of_rejected _ _ _ _ _ r hr]
    | thrown q => rw [send_file_of_thrown _ _ _ _ _ q hr]
  | ok p =>
    cases ho : fs.ifstream p with
    | none => rw [send_file_of_open_failed _ _ _ _ _ p hr ho]
    | some ifs =>
      exact absurd ((send_file_true_iff fs response root_dir http_path status).mpr
        ⟨p, ifs, hr, ho⟩) h

/-- A call is left by an exception exactly when the checks are, and then nothing
is printed. -/
theorem send_file_none_iff (fs : Filesystem) (response : Response) (root_dir http_path : Str)
    (status : Int) :
    (send_file fs response root_dir http_path status).ret = none ↔
      ∃ p, resolve fs root_dir http_path = Except.error (Stop.thrown p) := by
  cases h : resolve fs root_dir http_path with
  | error e =>
    cases e with
    | rejected r => simp [send_file_of_rejected _ _ _ _ _ r h]
    | thrown q => simp [send_file_of_thrown _ _ _ _ _ q h]
  | ok p =>
    cases ho : fs.ifstream p with
    | none => simp [send_file_of_open_failed _ _ _ _ _ p h ho]
    | some ifs =>
      by_cases hs : fs.file_size p ≤ buffer_size
      · simp [send_file_of_small _ _ _ _ _ p ifs h ho hs]
      · simp [send_file_of_large _ _ _ _ _ p ifs h ho (Nat.lt_of_not_le hs)]

theorem resolve_error_of_dotdot (fs : Filesystem) (root_dir http_path : Str)
    (h : "..".toList ∈ fs.elements http_path) :
    ∃ e, resolve fs root_dir http_path = Except.error e := by
  cases hr : resolve fs root_dir http_path with
  | error e => exact ⟨e, rfl⟩
  | ok p =>
    obtain ⟨real, -, hw, -⟩ := (resolve_ok_iff fs root_dir http_path p).mp hr
    exact absurd h ((walk_ok_iff fs _ real p).mp hw).1

/-- After checks that end without a path, the call has not returned true, the
sink is as it was, and the call has returned false unless `stat` or `lstat`
failed on some path with an error other than a missing file. -/
theorem send_file_of_error (fs : Filesystem) (response : Response)
    (root_dir http_path : Str) (status : Int) (e : Stop)
    (h : resolve fs root_dir http_path = Except.error e) :
    (send_file fs response root_dir http_path status).ret ≠ some true
      ∧ (send_file fs response root_dir http_path status).response = response
      ∧ ((send_file fs response root_dir http_path status).ret = some false
          ∨ ((send_file fs response root_dir http_path status).ret = none
              ∧ (send_file fs response root_dir http_path status).cerr = none
              ∧ ∃ p, fs.status p = file_type.status_error
                  ∨ fs.symlink_status p = file_type.status_error)) := by
  cases e with
  | rejected r =>
    rw [send_file_of_rejected _ _ _ _ _ r h]
    exact ⟨by simp, rfl, Or.inl rfl⟩
  | thrown q =>
    rw [send_file_of_thrown _ _ _ _ _ q h]
    exact ⟨by simp, rfl, Or.inr ⟨rfl, rfl, q, resolve_thrown fs _ _ q h⟩⟩

/-- C1 (amended). For every request path whose element sequence contains `..`,
`send_file` never returns true and leaves the response sink as it was, whatever
the other elements and the file system are: it returns false, or it is left by
the exception of a Boost check, which happens only when `stat` or `lstat` fails
on some path with an error other than a missing file. It returns false after the
`".." not allowed in path` line (`PathTraversal`) whenever the root is
canonicalised and every element before the first `..` passes the checks of the
walk: the paths accumulated before that `..` exist and are no symbolic links.
What follows the `..` plays no role. -/
theorem send_file_rejects_dotdot (fs : Filesystem) (response : Response)
    (root_dir http_path : Str) (status : Int)
    (h : "..".toList ∈ fs.elements http_path) :
    (send_file fs response root_dir http_path status).ret ≠ some true
      ∧ (send_file fs response root_dir http_path status).response = response
      ∧ ((send_file fs response root_dir http_path status).ret = some false
          ∨ ((send_file fs response root_dir http_path status).ret = none
              ∧ (send_file fs response root_dir http_path status).cerr = none
              ∧ ∃ p, fs.status p = file_type.status_error
                  ∨ fs.symlink_status p = file_type.status_error))
      ∧ ∀ (real : Path) (pre post : List Str),
          fs.canonical root_dir = some real →
          fs.elements http_path = pre ++ "..".toList :: post →
          Checked fs real (names pre) →
          "..".toList ∉ pre →
          (send_file fs response root_dir http_path status).ret = some false
            ∧ (send_file fs response root_dir http_path status).cerr
              = some Reject.PathTraversal := by
  obtain ⟨e, he⟩ := resolve_error_of_dotdot fs root_dir http_path h
  obtain ⟨h1, h2, h3⟩ := send_file_of_error fs response root_dir http_path status e he
  refine ⟨h1, h2, h3, ?_⟩
  intro real pre post hroot hsplit hchecked hpre
  have hw : walk fs real (fs.elements http_path)
      = Except.error (Stop.rejected Reject.PathTraversal) := by
    rw [hsplit, walk_append,
      (walk_ok_iff fs pre real (real ++ names pre)).mpr ⟨hpre, hchecked, rfl⟩]
    exact walk_dotdot fs _ post
  have hres : resolve fs root_dir http_path
      = Except.error (Stop.rejected Reject.PathTraversal) := by
    simp only [resolve, hroot, hw]
  rw [send_file_of_rejected fs response root_dir http_path status _ hres]
  exact ⟨rfl, rfl⟩

/-- Witness of C1: `/../../etc/passwd` on the example disk. -/
theorem send_file_rejects_dotdot_witness :
    "..".toList ∈ (disk_filesystem web site).elements "/../../etc/passwd".toList
      ∧ (send_file (disk_filesystem web site) [] "web".toList
          "/../../etc/passwd".toList 200).response = []
      ∧ (send_file (disk_filesystem web site) [] "web".toList
          "/../../etc/passwd".toList 200).ret = some false
      ∧ (send_file (disk_filesystem web site) [] "web".toList
          "/../../etc/passwd".toList 200).cerr = some Reject.PathTraversal :=
  ⟨by decide,
   (send_file_rejects_dotdot (disk_filesystem web site) [] "web".toList
      "/../../etc/passwd".toList 200 (by decide)).2.1,
   (send_file_rejects_dotdot (disk_filesystem web site) [] "web".toList
      "/../../etc/passwd".toList 200 (by decide)).2.2.2 web ["/".toList]
      ["..".toList, "etc".toList, "passwd".toList] (by decide) (by decide)
      (checked_nil _ _) (by decide)⟩

/-- Counterexample to C1 as stated. `/missing/../index.html` holds a `..`, yet
the call returns false after the line `Invalid path`, for the element `missing`
that comes first and does not exist. `/loop/../index.html` holds a `..` too, yet
the call does not return at all and prints nothing: `loop` is a symbolic link to
itself, `stat` fails on it with `ELOOP`, and `exists` throws. -/
theorem send_file_dotdot_after_missing :
    ("..".toList ∈ (disk_filesystem web site).elements "/missing/../index.html".toList
      ∧ (send_file (disk_filesystem web site) [] "web".toList
          "/missing/../index.html".toList 200).cerr
        = some (Reject.NotFound (web ++ ["missing".toList]))
      ∧ (send_file (disk_filesystem web site) [] "web".toList
          "/missing/../index.html".toList 200).cerr ≠ some Reject.PathTraversal)
    ∧ ("..".toList ∈ (disk_filesystem web site_with_links).elements
          "/loop/../index.html".toList
      ∧ (disk_filesystem web site_with_links).status (web ++ ["loop".toList])
          = file_type.status_error
      ∧ (send_file (disk_filesystem web site_with_links) [] "web".toList
          "/loop/../index.html".toList 200).ret = none
      ∧ (send_file (disk_filesystem web site_with_links) [] "web".toList
          "/loop/../index.html".toList 200).cerr = none) := by
  decide

theorem names_eq_self_of_prefix {q l : List Str} (h : q <+: names l) : names q = q := by
  unfold names
  rw [List.filter_eq_self]
  intro a ha
  have h1 := ((@mem_names a l).mp (h.subset ha)).2
  simp only [h1.1, h1.2, or_self, decide_False, Bool.not_false]

/-- The step of the walk on a symbolic link: what `exists` answers decides. -/
theorem walk_symlink (fs : Filesystem) (real_path : Path) (s : Str) (post : List Str)
    (hskip : ¬ (s = ".".toList ∨ s = "/".toList)) (hdd : s ≠ "..".toList)
    (hlink : fs.is_symlink (real_path ++ [s]) = some true) :
    walk fs real_path (s :: post) =
      match fs.exists_ (real_path ++ [s]) with
      | none => Except.error (Stop.thrown (real_path ++ [s]))
      | some false => Except.error (Stop.rejected (Reject.NotFound (real_path ++ [s])))
      | some true => Except.error (Stop.rejected (Reject.SymlinkRejected (real_path ++ [s]))) := by
  rw [walk_cons_keep fs _ _ _ hskip hdd, hlink]

/-- C2 (amended). When the root is canonicalised and some path accumulated below
it along the request path, `real ++ q0 ++ [s]`, is a symbolic link, `send_file`
never returns true and leaves the response sink as it was, wherever the target
of the link lies. If moreover the walk reaches that link (no `..` up to it, and
every path accumulated before it exists and is no symbolic link), then: when
`stat` follows the link to an existing target, the call returns false after
`Symlink ... not allowed`; when the target does not exist, it returns false
after `Invalid path ...`; and when `stat` fails on the link with another error
(a link that loops), it does not return and prints nothing, being left by the
exception that `exists` throws. -/
theorem send_file_rejects_symlink (fs : Filesystem) (response : Response)
    (root_dir http_path : Str) (status : Int) (real : Path) (q0 : List Str) (s : Str)
    (hroot : fs.canonical root_dir = some real)
    (hpre : q0 ++ [s] <+: names (fs.elements http_path))
    (hlink : fs.is_symlink (real ++ (q0 ++ [s])) = some true) :
    (send_file fs response root_dir http_path status).ret ≠ some true
      ∧ (send_file fs response root_dir http_path status).response = response
      ∧ ("..".toList ∉ q0 ++ [s] → Checked fs real q0 →
          (fs.exists_ (real ++ (q0 ++ [s])) = some true →
              (send_file fs response root_dir http_path status).ret = some false
                ∧ (send_file fs response root_dir http_path status).cerr
                  = some (Reject.SymlinkRejected (real ++ (q0 ++ [s]))))
            ∧ (fs.exists_ (real ++ (q0 ++ [s])) = some false →
              (send_file fs response root_dir http_path status).ret = some false
                ∧ (send_file fs response root_dir http_path status).cerr
                  = some (Reject.NotFound (real ++ (q0 ++ [s]))))
            ∧ (fs.exists_ (real ++ (q0 ++ [s])) = none →
              (send_file fs response root_dir http_path status).ret = none
                ∧ (send_file fs response root_dir http_path status).cerr = none)) := by
  have herr : ∃ e, resolve fs root_dir http_path = Except.error e := by
    cases hr : resolve fs root_dir http_path with
    | error e => exact ⟨e, rfl⟩
    | ok p =>
      obtain ⟨real2, hroot2, hw, -⟩ := (resolve_ok_iff fs root_dir http_path p).mp hr
      rw [hroot] at hroot2
      cases hroot2
      have hc := ((walk_ok_iff fs _ real p).mp hw).2.1
      have := (hc (q0 ++ [s]) (by simp) hpre).2
      rw [hlink] at this
      cases this
  obtain ⟨e, he⟩ := herr
  obtain ⟨h1, h2, -⟩ := send_file_of_error fs response root_dir http_path status e he
  refine ⟨h1, h2, ?_⟩
  intro hdd hchecked
  obtain ⟨post, hpost⟩ := hpre
  have hq0 : names q0 = q0 :=
    names_eq_self_of_prefix (l := fs.elements http_path)
      ⟨[s] ++ post, by rw [← hpost]; simp⟩
  have hs : s ∈ names (fs.elements http_path) := by rw [← hpost]; simp
  have hskip : ¬ (s = ".".toList ∨ s = "/".toList) := by
    have := (mem_names.mp hs).2
    exact fun h => h.elim this.1 this.2
  have hdd0 : "..".toList ∉ q0 := fun h => hdd (List.mem_append_left _ h)
  have hdds : s ≠ "..".toList := fun h => hdd (by simp [h])
  have hlink2 : fs.is_symlink (real ++ q0 ++ [s]) = some true := by
    rw [List.append_assoc]; exact hlink
  have hw : walk fs real (fs.elements http_path) =
      match fs.exists_ (real ++ (q0 ++ [s])) with
      | none => Except.error (Stop.thrown (real ++ (q0 ++ [s])))
      | some false => Except.error (Stop.rejected (Reject.NotFound (real ++ (q0 ++ [s]))))
      | some true =>
        Except.error (Stop.rejected (Reject.SymlinkRejected (real ++ (q0 ++ [s])))) := by
    rw [walk_names, ← hpost, List.append_assoc, walk_append,
      (walk_ok_iff fs q0 real (real ++ q0)).mpr ⟨hdd0, by rw [hq0]; exact hchecked, by rw [hq0]⟩]
    simp only [List.singleton_append]
    rw [walk_symlink fs (real ++ q0) s post hskip hdds hlink2, List.append_assoc]
  refine ⟨?_, ?_, ?_⟩
  · intro hex
    rw [hex] at hw
    have hres : resolve fs root_dir http_path = Except.error
        (Stop.rejected (Reject.SymlinkRejected (real ++ (q0 ++ [s])))) := by
      simp only [resolve, hroot, hw]
    rw [send_file_of_rejected fs response root_dir http_path status _ hres]
    exact ⟨rfl, rfl⟩
  · intro hex
    rw [hex] at hw
    have hres : resolve fs root_dir http_path = Except.error
        (Stop.rejected (Reject.NotFound (real ++ (q0 ++ [s])))) := by
      simp only [resolve, hroot, hw]
    rw [send_file_of_rejected fs response root_dir http_path status _ hres]
    exact ⟨rfl, rfl⟩
  · intro hex
    rw [hex] at hw
    have hres : resolve fs root_dir http_path = Except.error
        (Stop.thrown (real ++ (q0 ++ [s]))) := by
      simp only [resolve, hroot, hw]
    rw [send_file_of_thrown fs response root_dir http_path status _ hres]
    exact ⟨rfl, rfl⟩

/-- Witness of C2: `/latest` is a symbolic link to `index.html`, a file inside
the root; the call returns false after `Symlink ... not allowed`. -/
theorem send_file_rejects_symlink_witness :
    (disk_filesystem web site_with_links).is_symlink (web ++ ([] ++ ["latest".toList]))
        = some true
      ∧ (send_file (disk_filesystem web site_with_links) [] "web".toList
          "/latest".toList 200).response = []
      ∧ (send_file (disk_filesystem web site_with_links) [] "web".toList
          "/latest".toList 200).ret = some false
      ∧ (send_file (disk_filesystem web site_with_links) [] "web".toList
          "/latest".toList 200).cerr
        = some (Reject.SymlinkRejected (web ++ ([] ++ ["latest".toList]))) :=
  ⟨by decide,
   (send_file_rejects_symlink (disk_filesystem web site_with_links) [] "web".toList
      "/latest".toList 200 web [] "latest".toList (by decide) (by decide) (by decide)).2.1,
   ((send_file_rejects_symlink (disk_filesystem web site_with_links) [] "web".toList
      "/latest".toList 200 web [] "latest".toList (by decide) (by decide) (by decide)).2.2
      (by decide) (checked_nil _ _)).1 (by decide)⟩

/-- Counterexample to C2 as stated. `/ghost` is a symbolic link whose target
does not exist: `exists` follows the link and answers false first, so the line
printed is `Invalid path`, not `Symlink ... not allowed`. `/loop` is a symbolic
link to itself: `stat` fails on it with `ELOOP`, `exists` throws, and the call
neither returns false nor prints a line. -/
theorem send_file_dangling_symlink :
    ((disk_filesystem web site_with_links).is_symlink (web ++ ["ghost".toList]) = some true
      ∧ (send_file (disk_filesystem web site_with_links) [] "web".toList
          "/ghost".toList 200).cerr
        = some (Reject.NotFound (web ++ ["ghost".toList]))
      ∧ (send_file (disk_filesystem web site_with_links) [] "web".toList
          "/ghost".toList 200).cerr
        ≠ some (Reject.SymlinkRejected (web ++ ["ghost".toList])))
    ∧ ((disk_filesystem web site_with_links).is_symlink (web ++ ["loop".toList]) = some true
      ∧ (disk_filesystem web site_with_links).status (web ++ ["loop".toList])
          = file_type.status_error
      ∧ (send_file (disk_filesystem web site_with_links) [] "web".toList
          "/loop".toList 200).ret = none
      ∧ (send_file (disk_filesystem web site_with_links) [] "web".toList
          "/loop".toList 200).cerr = none) := by
  decide

/-- C3. Whenever `send_file` gets as far as opening a file, which it does
whenever it returns true, the path it opens is the canonical root followed in
order by the elements of the request path other than `.` and `/`; none of the
elements is `..`; every path accumulated below the root exists and is not a
symbolic link; the path opened is a regular file; and the canonical root is a
prefix of it. -/
theorem send_file_opens_checked_path (fs : Filesystem) (response : Response)
    (root_dir http_path : Str) (status : Int) :
    ((send_file fs response root_dir http_path status).ret = some true →
        ∃ p, (send_file fs response root_dir http_path status).opened = some p)
      ∧ ∀ p, (send_file fs response root_dir http_path status).opened = some p →
          ∃ real, fs.canonical root_dir = some real
            ∧ p = real ++ names (fs.elements http_path)
            ∧ "..".toList ∉ fs.elements http_path
            ∧ Checked fs real (names (fs.elements http_path))
            ∧ fs.is_regular_file p = some true
            ∧ real <+: p := by
  have key : ∀ p, resolve fs root_dir http_path = Except.ok p →
      ∃ real, fs.canonical root_dir = some real
        ∧ p = real ++ names (fs.elements http_path)
        ∧ "..".toList ∉ fs.elements http_path
        ∧ Checked fs real (names (fs.elements http_path))
        ∧ fs.is_regular_file p = some true
        ∧ real <+: p := by
    intro p hr
    obtain ⟨real, hroot, hw, hreg⟩ := (resolve_ok_iff fs root_dir http_path p).mp hr
    obtain ⟨h1, h2, h3⟩ := (walk_ok_iff fs _ real p).mp hw
    exact ⟨real, hroot, h3, h1, h2, hreg, h3 ▸ List.prefix_append _ _⟩
  cases h : resolve fs root_dir http_path with
  | error e =>
    cases e with
    | rejected r => simp [send_file_of_rejected _ _ _ _ _ r h]
    | thrown q => simp [send_file_of_thrown _ _ _ _ _ q h]
  | ok p =>
    cases ho : fs.ifstream p with
    | none =>
      simp only [send_file_of_open_failed _ _ _ _ _ p h ho, Option.some.injEq]
      exact ⟨fun h0 => Bool.noConfusion h0, fun q hq => hq ▸ key p h⟩
    | some ifs =>
      by_cases hs : fs.file_size p ≤ buffer_size
      · simp only [send_file_of_small _ _ _ _ _ p ifs h ho hs, Option.some.injEq]
        exact ⟨fun _ => ⟨p, rfl⟩, fun q hq => hq ▸ key p h⟩
      · simp only [send_file_of_large _ _ _ _ _ p ifs h ho (Nat.lt_of_not_le hs),
          Option.some.injEq]
        exact ⟨fun _ => ⟨p, rfl⟩, fun q hq => hq ▸ key p h⟩

/-- Witness of C3: `/css/main.css` on the example disk is opened as
`/srv/web/css/main.css`. -/
theorem send_file_opens_checked_path_witness :
    (send_file (disk_filesystem web site) [] "web".toList "/css/main.css".toList 200).opened
        = some (web ++ ["css".toList, "main.css".toList])
      ∧ ∃ real, (disk_filesystem web site).canonical "web".toList = some real
          ∧ web ++ ["css".toList, "main.css".toList]
              = real ++ names ((disk_filesystem web site).elements "/css/main.css".toList)
          ∧ "..".toList ∉ (disk_filesystem web site).elements "/css/main.css".toList
          ∧ Checked (disk_filesystem web site) real
              (names ((disk_filesystem web site).elements "/css/main.css".toList))
          ∧ (disk_filesystem web site).is_regular_file
              (web ++ ["css".toList, "main.css".toList]) = some true
          ∧ real <+: web ++ ["css".toList, "main.css".toList] :=
  ⟨by decide,
   (send_file_opens_checked_path (disk_filesystem web site) [] "web".toList
      "/css/main.css".toList 200).2 _ (by decide)⟩

/-- C4. Whenever `send_file` returns false, the response sink is what it was
before the call (nothing written, nothing flushed), no byte has been taken out
of the file, and one of the six rejection lines has been printed. -/
theorem send_file_false_writes_nothing (fs : Filesystem) (response : Response)
    (root_dir http_path : Str) (status : Int)
    (h : (send_file fs response root_dir http_path status).ret = some false) :
    (send_file fs response root_dir http_path status).response = response
      ∧ (send_file fs response root_dir http_path status).file_read = []
      ∧ ∃ r, (send_file fs response root_dir http_path status).cerr = some r := by
  cases hr : resolve fs root_dir http_path with
  | error e =>
    cases e with
    | rejected r => simp [send_file_of_rejected _ _ _ _ _ r hr]
    | thrown q =>
      rw [send_file_of_thrown _ _ _ _ _ q hr] at h
      cases h
  | ok p =>
    cases ho : fs.ifstream p with
    | none => simp [send_file_of_open_failed _ _ _ _ _ p hr ho]
    | some ifs =>
      have : (send_file fs response root_dir http_path status).ret = some true :=
        (send_file_true_iff fs response root_dir http_path status).mpr ⟨p, ifs, hr, ho⟩
      rw [h] at this
      cases this

/-- Witness of C4: `/../../etc/passwd` leaves a sink that already holds an
operation untouched. -/
theorem send_file_false_writes_nothing_witness :
    (send_file (disk_filesystem web site) [SinkOp.flush] "web".toList
        "/../../etc/passwd".toList 200).ret = some false
      ∧ (send_file (disk_filesystem web site) [SinkOp.flush] "web".toList
          "/../../etc/passwd".toList 200).response = [SinkOp.flush]
      ∧ (send_file (disk_filesystem web site) [SinkOp.flush] "web".toList
          "/../../etc/passwd".toList 200).file_read = [] :=
  ⟨by decide,
   (send_file_false_writes_nothing (disk_filesystem web site) [SinkOp.flush] "web".toList
      "/../../etc/passwd".toList 200 (by decide)).1,
   (send_file_false_writes_nothing (disk_filesystem web site) [SinkOp.flush] "web".toList
      "/../../etc/passwd".toList 200 (by decide)).2.1⟩

/-! ### `send_file`: the transfer -/

/-- The read loop writes the file block by block: full blocks of `buffer_size`
bytes, then the remainder, each followed by a flush. -/
theorem read_loop_blocks (n : Nat) :
    ∀ (ifs : Str) (response : Response), ifs.length = n →
      ∃ blocks : List Str,
        read_loop response ifs =
            response ++ (blocks.map fun b => [SinkOp.write b, SinkOp.flush]).flatten
          ∧ blocks.flatten = ifs
          ∧ blocks.length = (ifs.length + 131071) / 131072
          ∧ ∀ (i : Nat) (b : Str), blocks[i]? = some b →
              if i + 1 < blocks.length then b.length = 131072
              else b.length = ifs.length - 131072 * (blocks.length - 1) := by
  induction n using Nat.strong_induction_on with
  | _ n ih =>
    intro ifs response hn
    by_cases h : 0 < (ifs.take buffer_size).length
    · have hlen : (ifs.drop buffer_size).length < n := by
        simp only [List.length_take, List.length_drop, buffer_size] at *
        omega
      obtain ⟨blocks, h1, h2, h3, h4⟩ := ih _ hlen (ifs.drop buffer_size)
        (response ++ [SinkOp.write (ifs.take buffer_size), SinkOp.flush]) rfl
      refine ⟨ifs.take buffer_size :: blocks, ?_, ?_, ?_, ?_⟩
      · rw [read_loop, if_pos h, h1]
        simp
      · rw [List.flatten_cons, h2, List.take_append_drop]
      · simp only [List.length_cons, h3, List.length_take, List.length_drop, buffer_size] at *
        omega
      · intro i b hb
        cases i with
        | zero =>
          simp only [List.getElem?_cons_zero, Option.some.injEq] at hb
          subst hb
          simp only [List.length_cons, h3, List.length_take, List.length_drop, buffer_size] at *
          split <;> omega
        | succ j =>
          simp only [List.getElem?_cons_succ] at hb
          have hj : j < blocks.length := by
            rcases Nat.lt_or_ge j blocks.length with hlt | hge
            · exact hlt
            · rw [List.getElem?_eq_none hge] at hb; cases hb
          have := h4 j b hb
          simp only [List.length_cons, List.length_take, List.length_drop, buffer_size] at *
          split at this <;> split <;> omega
    · have hnil : ifs = [] := by
        cases ifs with
        | nil => rfl
        | cons c cs => simp [buffer_size] at h
      subst hnil
      refine ⟨[], ?_, rfl, by simp, ?_⟩
      · rw [read_loop, if_neg h]; simp
      · intro i b hb; simp at hb

/-- C5. For every file that resolves and opens, of size `N ≤ 131072`, `send_file`
returns true after exactly two operations on the sink: the write of the header,
whose `Content-Length` is the decimal rendering of `N`, then one write of the
whole content of the file; no flush is issued. -/
theorem send_file_small_file (fs : Filesystem) (response : Response)
    (root_dir http_path : Str) (status : Int) (p : Path) (content : Str)
    (hres : resolve fs root_dir http_path = Except.ok p)
    (hopen : fs.ifstream p = some content)
    (hsize : fs.file_size p = content.length)
    (hN : content.length ≤ 131072) :
    (send_file fs response root_dir http_path status).ret = some true
      ∧ (send_file fs response root_dir http_path status).response =
          response ++
            [ SinkOp.write ("HTTP/1.1 ".toList ++ int_to_chars status ++ "\r\n".toList
                ++ content_type (fs.extension p)
                ++ "Content-Length: ".toList ++ Nat.toDigits 10 content.length
                ++ "\r\n\r\n".toList),
              SinkOp.write content ] := by
  have hs : fs.file_size p ≤ buffer_size := by rw [hsize]; exact hN
  rw [send_file_of_small fs response root_dir http_path status p content hres hopen hs, hsize]
  simp [header, size_to_chars]

/-- Witness of C5: `/index.html`, five bytes, on the example disk. -/
theorem send_file_small_file_witness :
    (send_file (disk_filesystem web site) [] "web".toList "/index.html".toList 200).ret = some true
      ∧ (send_file (disk_filesystem web site) [] "web".toList "/index.html".toList 200).response =
          [] ++
            [ SinkOp.write ("HTTP/1.1 ".toList ++ int_to_chars 200 ++ "\r\n".toList
                ++ content_type ((disk_filesystem web site).extension
                    (web ++ ["index.html".toList]))
                ++ "Content-Length: ".toList ++ Nat.toDigits 10 "hello".toList.length
                ++ "\r\n\r\n".toList),
              SinkOp.write "hello".toList ] :=
  send_file_small_file (disk_filesystem web site) [] "web".toList "/index.html".toList 200
    (web ++ ["index.html".toList]) "hello".toList rfl rfl rfl (by decide)

/-- C6. For every file that resolves and opens, of size `N > 131072`, `send_file`
returns true, and after the header it writes the content of the file split into
consecutive blocks, in file order: `ceil(N / 131072)` blocks, each of 131072
bytes but the last, which has the `N - 131072 * (ceil(N / 131072) - 1)` bytes
that remain; each write of a block is followed by one flush. The read loop is a
total function, so it terminates. -/
theorem send_file_large_file (fs : Filesystem) (response : Response)
    (root_dir http_path : Str) (status : Int) (p : Path) (content : Str)
    (hres : resolve fs root_dir http_path = Except.ok p)
    (hopen : fs.ifstream p = some content)
    (hsize : fs.file_size p = content.length)
    (hN : 131072 < content.length) :
    (send_file fs response root_dir http_path status).ret = some true
      ∧ ∃ blocks : List Str,
          (send_file fs response root_dir http_path status).response =
              response ++
                SinkOp.write ("HTTP/1.1 ".toList ++ int_to_chars status ++ "\r\n".toList
                  ++ content_type (fs.extension p)
                  ++ "Content-Length: ".toList ++ Nat.toDigits 10 content.length
                  ++ "\r\n\r\n".toList)
                :: (blocks.map fun b => [SinkOp.write b, SinkOp.flush]).flatten
            ∧ blocks.flatten = content
            ∧ blocks.length = (content.length + 131071) / 131072
            ∧ ∀ (i : Nat) (b : Str), blocks[i]? = some b →
                if i + 1 < blocks.length then b.length = 131072
                else b.length = content.length - 131072 * (blocks.length - 1) := by
  have hs : buffer_size < fs.file_size p := by rw [hsize]; exact hN
  rw [send_file_of_large fs response root_dir http_path status p content hres hopen hs, hsize]
  refine ⟨rfl, ?_⟩
  obtain ⟨blocks, h1, h2, h3, h4⟩ := read_loop_blocks content.length content
    (response ++ [SinkOp.write (header status (content_type (fs.extension p)) content.length)])
    rfl
  refine ⟨blocks, ?_, h2, h3, h4⟩
  rw [h1]
  simp [header, size_to_chars]

/-- Witness of C6: `/big.bin`, 131073 bytes, goes out in two blocks. -/
theorem send_file_large_file_witness :
    131072 < (List.replicate 131073 'a').length
      ∧ (send_file (disk_filesystem web site_with_big_file) [] "web".toList
          "/big.bin".toList 200).ret = some true
      ∧ ∃ blocks : List Str,
          (send_file (disk_filesystem web site_with_big_file) [] "web".toList
              "/big.bin".toList 200).response =
              [] ++
                SinkOp.write ("HTTP/1.1 ".toList ++ int_to_chars 200 ++ "\r\n".toList
                  ++ content_type ((disk_filesystem web site_with_big_file).extension
                      (web ++ ["big.bin".toList]))
                  ++ "Content-Length: ".toList
                  ++ Nat.toDigits 10 (List.replicate 131073 'a').length
                  ++ "\r\n\r\n".toList)
                :: (blocks.map fun b => [SinkOp.write b, SinkOp.flush]).flatten
            ∧ blocks.flatten = List.replicate 131073 'a'
            ∧ blocks.length = ((List.replicate 131073 'a').length + 131071) / 131072
            ∧ ∀ (i : Nat) (b : Str), blocks[i]? = some b →
                if i + 1 < blocks.length then b.length = 131072
                else b.length =
                  (List.replicate 131073 'a').length - 131072 * (blocks.length - 1) :=
  ⟨by rw [List.length_replicate]; omega,
   send_file_large_file (disk_filesystem web site_with_big_file) [] "web".toList
     "/big.bin".toList 200 (web ++ ["big.bin".toList]) (List.replicate 131073 'a')
     rfl rfl rfl (by rw [List.length_replicate]; omega)⟩

theorem sent_blocks (blocks : List Str) :
    sent (blocks.map fun b => [SinkOp.write b, SinkOp.flush]).flatten = blocks.flatten := by
  induction blocks with
  | nil => rfl
  | cons b bs ih => simp [sent, ih]

/-- A call on a file that resolves and opens returns true; the first operation
it issues is the write of the header, and the operations after it carry the
content of the file. -/
theorem send_file_sends (fs : Filesystem) (response : Response)
    (root_dir http_path : Str) (status : Int) (p : Path) (content : Str)
    (hres : resolve fs root_dir http_path = Except.ok p)
    (hopen : fs.ifstream p = some content) :
    (send_file fs response root_dir http_path status).ret = some true
      ∧ ∃ body : Response,
          (send_file fs response root_dir http_path status).response =
              response ++
                SinkOp.write ("HTTP/1.1 ".toList ++ int_to_chars status ++ "\r\n".toList
                  ++ content_type (fs.extension p)
                  ++ "Content-Length: ".toList ++ Nat.toDigits 10 (fs.file_size p)
                  ++ "\r\n\r\n".toList) :: body
            ∧ sent body = content := by
  by_cases hs : fs.file_size p ≤ buffer_size
  · rw [send_file_of_small fs response root_dir http_path status p content hres hopen hs]
    exact ⟨rfl, [SinkOp.write content], by simp [header, size_to_chars], by simp [sent]⟩
  · rw [send_file_of_large fs response root_dir http_path status p content hres hopen
      (Nat.lt_of_not_le hs)]
    obtain ⟨blocks, h1, h2, -, -⟩ := read_loop_blocks content.length content
      (response ++ [SinkOp.write (header status (content_type (fs.extension p))
        (fs.file_size p))]) rfl
    refine ⟨rfl, (blocks.map fun b => [SinkOp.write b, SinkOp.flush]).flatten, ?_, ?_⟩
    · rw [h1]; simp [header, size_to_chars]
    · rw [sent_blocks, h2]

/-- C7. On `/index.html` of the example disk, served with status 200, the status
line written by `send_file` is `HTTP/1.1 200` followed at once by CRLF: the
space that the documented format puts after the status is not written. -/
theorem send_file_status_line_has_no_space :
    (send_file (disk_filesystem web site) [] "web".toList "/index.html".toList 200).response
        = [ SinkOp.write
              "HTTP/1.1 200\r\nContent-Type: text/html\r\nContent-Length: 5\r\n\r\n".toList,
            SinkOp.write "hello".toList ]
      ∧ ¬ ("HTTP/1.1 200 ".toList <+:
            "HTTP/1.1 200\r\nContent-Type: text/html\r\nContent-Length: 5\r\n\r\n".toList) := by
  decide

theorem content_type_of_unknown (ext : Str) (h : ext ∉ known_extensions) :
    content_type ext = [] := by
  simp only [known_extensions, List.mem_cons, List.mem_singleton, not_or, List.not_mem_nil,
    or_false] at h
  obtain ⟨h1, h2, h3, h4, h5, h6, h7, h8, h9⟩ := h
  simp only [content_type, content_types, List.lookup, beq_false_of_ne h1, beq_false_of_ne h2,
    beq_false_of_ne h3, beq_false_of_ne h4, beq_false_of_ne h5, beq_false_of_ne h6,
    beq_false_of_ne h7, beq_false_of_ne h8, beq_false_of_ne h9]

/-- C8. The lookup of the content type is a total function of the extension,
leading dot included, and compares it character by character: the nine
extensions of the table yield their `Content-Type` line, every other extension
(`.HTML` and the empty extension among them) yields the empty string. In
`send_file` the line found stands between the status line and `Content-Length`;
for an extension that is not in the table the header has no `Content-Type` line,
and the call still returns true. -/
theorem content_type_lookup :
    content_type ".txt".toList = "Content-Type: text/plain\r\n".toList
      ∧ content_type ".png".toList = "Content-Type: image/png\r\n".toList
      ∧ content_type ".jpg".toList = "Content-Type: image/jpeg\r\n".toList
      ∧ content_type ".jpeg".toList = "Content-Type: image/jpeg\r\n".toList
      ∧ content_type ".gif".toList = "Content-Type: image/gif\r\n".toList
      ∧ content_type ".css".toList = "Content-Type: text/css\r\n".toList
      ∧ content_type ".html".toList = "Content-Type: text/html\r\n".toList
      ∧ content_type ".pdf".toList = "Content-Type: application/pdf\r\n".toList
      ∧ content_type ".json".toList = "Content-Type: application/json\r\n".toList
      ∧ (∀ ext : Str, ext ∉ known_extensions → content_type ext = [])
      ∧ content_type ".HTML".toList = []
      ∧ content_type [] = []
      ∧ (∀ (fs : Filesystem) (response : Response) (root_dir http_path : Str) (status : Int)
          (p : Path) (content : Str),
          resolve fs root_dir http_path = Except.ok p → fs.ifstream p = some content →
          (send_file fs response root_dir http_path status).ret = some true
            ∧ ∃ body : Response,
                (send_file fs response root_dir http_path status).response =
                  response ++
                    SinkOp.write ("HTTP/1.1 ".toList ++ int_to_chars status ++ "\r\n".toList
                      ++ content_type (fs.extension p)
                      ++ "Content-Length: ".toList ++ Nat.toDigits 10 (fs.file_size p)
                      ++ "\r\n\r\n".toList) :: body)
      ∧ (∀ (fs : Filesystem) (response : Response) (root_dir http_path : Str) (status : Int)
          (p : Path) (content : Str),
          resolve fs root_dir http_path = Except.ok p → fs.ifstream p = some content →
          fs.extension p ∉ known_extensions →
          (send_file fs response root_dir http_path status).ret = some true
            ∧ ∃ body : Response,
                (send_file fs response root_dir http_path status).response =
                  response ++
                    SinkOp.write ("HTTP/1.1 ".toList ++ int_to_chars status ++ "\r\n".toList
                      ++ "Content-Length: ".toList ++ Nat.toDigits 10 (fs.file_size p)
                      ++ "\r\n\r\n".toList) :: body) := by
  refine ⟨by decide, by decide, by decide, by decide, by decide, by decide, by decide,
    by decide, by decide, content_type_of_unknown, by decide, by decide, ?_, ?_⟩
  · intro fs response root_dir http_path status p content hres hopen
    obtain ⟨h1, body, h2, -⟩ :=
      send_file_sends fs response root_dir http_path status p content hres hopen
    exact ⟨h1, body, h2⟩
  · intro fs response root_dir http_path status p content hres hopen hext
    obtain ⟨h1, body, h2, -⟩ :=
      send_file_sends fs response root_dir http_path status p content hres hopen
    rw [content_type_of_unknown _ hext, List.append_nil] at h2
    exact ⟨h1, body, h2⟩

/-- Witness of C8: `/index.html` is served with `Content-Type: text/html`, and
`/README`, which has no extension, without a `Content-Type` line. -/
theorem content_type_lookup_witness :
    (∃ body : Response,
        (send_file (disk_filesystem web site) [] "web".toList "/index.html".toList 200).response
          = [] ++ SinkOp.write ("HTTP/1.1 ".toList ++ int_to_chars 200 ++ "\r\n".toList
              ++ "Content-Type: text/html\r\n".toList
              ++ "Content-Length: ".toList ++ Nat.toDigits 10 5 ++ "\r\n\r\n".toList) :: body)
      ∧ ∃ body : Response,
        (send_file (disk_filesystem web site) [] "web".toList "/README".toList 200).response
          = [] ++ SinkOp.write ("HTTP/1.1 ".toList ++ int_to_chars 200 ++ "\r\n".toList
              ++ "Content-Length: ".toList ++ Nat.toDigits 10 7 ++ "\r\n\r\n".toList) :: body :=
  ⟨(content_type_lookup.2.2.2.2.2.2.2.2.2.2.2.2.1 (disk_filesystem web site) [] "web".toList
      "/index.html".toList 200 (web ++ ["index.html".toList]) "hello".toList rfl rfl).2,
   (content_type_lookup.2.2.2.2.2.2.2.2.2.2.2.2.2 (disk_filesystem web site) [] "web".toList
      "/README".toList 200 (web ++ ["README".toList]) "read me".toList rfl rfl
      (by decide)).2⟩

/-! ### The handlers -/

/-- C9 (amended). The default `GET` handler answers a request for the path `p`
as follows, where the primary path is `p`, or `/index.html` when `p` is `/`.
Unless a call of `send_file` is left by the exception of a Boost check (which
happens only when `stat` or `lstat` fails on some path with an error other than
a missing file; the exception then leaves the handler too and nothing is
written), the handler returns after exactly one response, chosen by a chain of
three steps. If `send_file` returns true on the primary path under `web` (the
path resolves and the file opens), that file is sent with status 200. Otherwise,
if `send_file` returns true on `/404.html` under `web`, that file is sent with
status 404. Otherwise one plain-text 404 reply is written whose body is the
primary path between double quotes followed by ` not found`, and whose
`Content-Length` is the decimal length of that body. -/
theorem default_GET_fallback (fs : Filesystem) (response : Response) (request : Request) :
    (∃ (p : Path) (content : Str) (body : Response),
        resolve fs "web".toList (primary_path request.path) = Except.ok p
          ∧ fs.ifstream p = some content
          ∧ default_GET_run fs response request =
              { response := response ++
                  SinkOp.write ("HTTP/1.1 ".toList ++ int_to_chars 200 ++ "\r\n".toList
                    ++ content_type (fs.extension p)
                    ++ "Content-Length: ".toList ++ Nat.toDigits 10 (fs.file_size p)
                    ++ "\r\n\r\n".toList) :: body,
                thrown := false }
          ∧ sent body = content)
      ∨ ((send_file fs response "web".toList (primary_path request.path) 200).ret = some false
          ∧ ∃ (p : Path) (content : Str) (body : Response),
              resolve fs "web".toList "/404.html".toList = Except.ok p
                ∧ fs.ifstream p = some content
                ∧ default_GET_run fs response request =
                    { response := response ++
                        SinkOp.write ("HTTP/1.1 ".toList ++ int_to_chars 404 ++ "\r\n".toList
                          ++ content_type (fs.extension p)
                          ++ "Content-Length: ".toList ++ Nat.toDigits 10 (fs.file_size p)
                          ++ "\r\n\r\n".toList) :: body,
                      thrown := false }
                ∧ sent body = content)
      ∨ ((send_file fs response "web".toList (primary_path request.path) 200).ret = some false
          ∧ (send_file fs response "web".toList "/404.html".toList 404).ret = some false
          ∧ default_GET_run fs response request =
              { response := response ++
                  [ SinkOp.write
                      ("HTTP/1.1 404 Not found\r\nContent-type: text/plain\r\nContent-Length: ".toList
                        ++ Nat.toDigits 10
                            ("\"".toList ++ primary_path request.path
                              ++ "\" not found".toList).length
                        ++ "\r\n\r\n".toList
                        ++ ("\"".toList ++ primary_path request.path
                              ++ "\" not found".toList)) ],
                thrown := false })
      ∨ (((send_file fs response "web".toList (primary_path request.path) 200).ret = none
            ∨ ((send_file fs response "web".toList (primary_path request.path) 200).ret
                  = some false
                ∧ (send_file fs response "web".toList "/404.html".toList 404).ret = none))
          ∧ default_GET_run fs response request = { response := response, thrown := true }
          ∧ ∃ p, fs.status p = file_type.status_error
              ∨ fs.symlink_status p = file_type.status_error) := by
  have hthrown : ∀ (http_path : Str) (status : Int),
      (send_file fs response "web".toList http_path status).ret = none →
      ∃ p, fs.status p = file_type.status_error
        ∨ fs.symlink_status p = file_type.status_error := by
    intro http_path status h
    obtain ⟨q, hq⟩ := (send_file_none_iff fs response _ _ _).mp h
    exact ⟨q, resolve_thrown fs _ _ q hq⟩
  cases h1 : (send_file fs response "web".toList (primary_path request.path) 200).ret with
  | none =>
    right; right; right
    have hresp := send_file_response_of_not_true fs response "web".toList
      (primary_path request.path) 200 (by rw [h1]; simp)
    refine ⟨Or.inl rfl, ?_, hthrown _ _ h1⟩
    simp only [default_GET_run, h1, hresp]
  | some b1 =>
    cases b1 with
    | true =>
      left
      obtain ⟨p, content, hres, hopen⟩ := (send_file_true_iff _ _ _ _ _).mp h1
      obtain ⟨-, body, hb, hs⟩ := send_file_sends fs response "web".toList
        (primary_path request.path) 200 p content hres hopen
      refine ⟨p, content, body, hres, hopen, ?_, hs⟩
      rw [← hb]
      simp only [default_GET_run, h1]
    | false =>
      right
      have hresp := send_file_response_of_not_true fs response "web".toList
        (primary_path request.path) 200 (by rw [h1]; simp)
      cases h2 : (send_file fs response "web".toList "/404.html".toList 404).ret with
      | none =>
        right; right
        have hresp2 := send_file_response_of_not_true fs response "web".toList
          "/404.html".toList 404 (by rw [h2]; simp)
        refine ⟨Or.inr ⟨rfl, rfl⟩, ?_, hthrown _ _ h2⟩
        simp only [default_GET_run, h1, hresp, h2, hresp2]
      | some b2 =>
        cases b2 with
        | true =>
          left
          obtain ⟨p, content, hres, hopen⟩ := (send_file_true_iff _ _ _ _ _).mp h2
          obtain ⟨-, body, hb, hs⟩ := send_file_sends fs response "web".toList
            "/404.html".toList 404 p content hres hopen
          refine ⟨rfl, p, content, body, hres, hopen, ?_, hs⟩
          rw [← hb]
          simp only [default_GET_run, h1, hresp, h2]
        | false =>
          right; left
          have hresp2 := send_file_response_of_not_true fs response "web".toList
            "/404.html".toList 404 (by rw [h2]; simp)
          refine ⟨rfl, rfl, ?_⟩
          simp only [default_GET_run, h1, hresp, h2, hresp2, not_found_content, size_to_chars]

/-- Counterexample to C9 as stated, on three requests. A request for `/` on a
web root that holds neither `index.html` nor `404.html` is answered with a body
that names `/index.html`; the body that names the request path `/` is not what
is written. On a disk where `index.html` resolves but cannot be opened, the
request for `/index.html` is not answered with that file and status 200 but with
the synthesized 404. A request for `/loop`, a symbolic link to itself, is not
answered at all: `exists` throws, the exception leaves the handler, and the sink
stays empty. -/
theorem default_GET_names_index_html :
    (default_GET (disk_filesystem web empty_site) [] (get_request "/".toList)
        = [ SinkOp.write
              ("HTTP/1.1 404 Not found\r\nContent-type: text/plain\r\nContent-Length: 23\r\n\r\n".toList
                ++ "\"/index.html\" not found".toList) ]
      ∧ default_GET (disk_filesystem web empty_site) [] (get_request "/".toList)
        ≠ [ SinkOp.write
              ("HTTP/1.1 404 Not found\r\nContent-type: text/plain\r\nContent-Length: 13\r\n\r\n".toList
                ++ "\"/\" not found".toList) ])
    ∧ (resolve unreadable_site "web".toList "/index.html".toList
          = Except.ok (web ++ ["index.html".toList])
      ∧ default_GET_run unreadable_site [] (get_request "/index.html".toList)
        = { response :=
              [ SinkOp.write
                  ("HTTP/1.1 404 Not found\r\nContent-type: text/plain\r\nContent-Length: 23\r\n\r\n".toList
                    ++ "\"/index.html\" not found".toList) ],
            thrown := false })
    ∧ ((disk_filesystem web site_with_links).status (web ++ ["loop".toList])
          = file_type.status_error
      ∧ default_GET_run (disk_filesystem web site_with_links) [] (get_request "/loop".toList)
        = { response := [], thrown := true }) :=
  ⟨by decide, ⟨rfl, by decide⟩, by decide⟩

/-- The three steps of the chain on concrete disks: `/` is answered with
`index.html` and status 200; a missing page with `404.html` and status 404 when
the disk has one; and with the synthesized reply when it has none. -/
theorem default_GET_three_steps :
    default_GET (disk_filesystem web site) [] (get_request "/".toList)
        = [ SinkOp.write
              "HTTP/1.1 200\r\nContent-Type: text/html\r\nContent-Length: 5\r\n\r\n".toList,
            SinkOp.write "hello".toList ]
      ∧ default_GET (disk_filesystem web site_with_404) [] (get_request "/nope".toList)
        = [ SinkOp.write
              "HTTP/1.1 404\r\nContent-Type: text/html\r\nContent-Length: 9\r\n\r\n".toList,
            SinkOp.write "not here!".toList ]
      ∧ default_GET (disk_filesystem web site) [] (get_request "/nope".toList)
        = [ SinkOp.write
              ("HTTP/1.1 404 Not found\r\nContent-type: text/plain\r\nContent-Length: 17\r\n\r\n".toList
                ++ "\"/nope\" not found".toList) ] := by
  decide

theorem after_literal_append (lit d : Str) : after_literal lit (lit ++ d) = some d := by
  induction lit with
  | nil => cases d <;> rfl
  | cons c cs ih => simp [after_literal, ih]

theorem regex_match_number (d : Str) (hd : d ≠ [])
    (hdigits : ∀ c ∈ d, c.isDigit = true) :
    regex_match "^/match/([0-9]+)$".toList ("/match/".toList ++ d)
      = some ["/match/".toList ++ d, d] := by
  have h1 : ¬ ("^/match/([0-9]+)$".toList = "^/string$".toList) := by decide
  have h2 : ¬ ("^/match/([0-9]+)$".toList = "^/json$".toList) := by decide
  have h3 : ¬ ("^/match/([0-9]+)$".toList = "^/info$".toList) := by decide
  have hall : d.all Char.isDigit = true := List.all_eq_true.mpr hdigits
  simp only [regex_match, h1, h2, h3, if_false, if_true, after_literal_append, hall, and_true,
    ne_eq, hd, not_false_eq_true]

/-- C10. For every `GET` request whose path is `/match/` followed by a non-empty
string `d` of digits, the path fully matches `^/match/([0-9]+)$` with `d` as
capture 1, and the server answers through the handler of that pattern with
status 200, a `Content-Length` that is the decimal length of `d`, and the body
`d`. -/
theorem server_match_number (fs : Filesystem) (pt : PropertyTree) (response : Response)
    (request : Request) (d : Str)
    (hmethod : request.method = "GET".toList)
    (hpath : request.path = "/match/".toList ++ d)
    (hd : d ≠ [])
    (hdigits : ∀ c ∈ d, c.isDigit = true) :
    regex_match "^/match/([0-9]+)$".toList request.path = some [request.path, d]
      ∧ server fs pt response request =
          response ++
            [ SinkOp.write ("HTTP/1.1 200 OK\r\nContent-Length: ".toList
                ++ Nat.toDigits 10 d.length ++ "\r\n\r\n".toList ++ d) ] := by
  have hm := regex_match_number d hd hdigits
  have hinfo : regex_match "^/info$".toList ("/match/".toList ++ d) = none := by
    have h1 : ¬ ("^/info$".toList = "^/string$".toList) := by decide
    have h2 : ¬ ("^/info$".toList = "^/json$".toList) := by decide
    have h3 : ¬ ("/match/".toList ++ d = "/info".toList) := by
      intro h
      have := congrArg (fun l => l.get? 1) h
      simp at this
    simp only [regex_match, h1, h2, h3, if_false, if_true]
  have hpost : ¬ ("POST".toList = "GET".toList) := by decide
  refine ⟨by rw [hpath]; exact hm, ?_⟩
  simp only [server, dispatch, resource, find_route, hmethod, hpath, hpost, if_false, if_true,
    hinfo, hm, match_GET, List.getD_cons_succ, List.getD_cons_zero, size_to_chars]

/-- Witness of C10: `GET /match/123` is answered with the body `123`. -/
theorem server_match_number_witness :
    regex_match "^/match/([0-9]+)$".toList (get_request "/match/123".toList).path
        = some [(get_request "/match/123".toList).path, "123".toList]
      ∧ server (disk_filesystem web site) no_json [] (get_request "/match/123".toList) =
          [] ++
            [ SinkOp.write ("HTTP/1.1 200 OK\r\nContent-Length: ".toList
                ++ Nat.toDigits 10 "123".toList.length ++ "\r\n\r\n".toList ++ "123".toList) ] :=
  server_match_number (disk_filesystem web site) no_json [] (get_request "/match/123".toList)
    "123".toList rfl rfl (by decide) (by decide)

end HttpExamples
